import Mathlib

/-!
Shallow embedding of the edward2 baselines scripts
(`baselines/cifar/variational_inference.py` and
`baselines/imagenet/batchensemble.py`) and proofs of the specification
claims about them.

Tensors reduced by the scripts are modelled as lists of rationals;
machine integer arithmetic in the scripts is Python arbitrary-precision
integer arithmetic, modelled by Nat / Int with Python floor division and
modulo semantics.
-/

namespace Edward2

/-- Model of Python string containment (`needle in hay`), used by the
filtering loops over `var.name` in both training scripts. -/
def pyStrContains (needle hay : String) : Bool :=
  decide (needle.toList <:+: hay.toList)

/-- Model of `tf.reduce_mean` on a flat tensor: sum of elements divided by
the number of elements (0 on an empty tensor, matching rational division
by zero in this embedding). -/
def reduceMean (xs : List ℚ) : ℚ :=
  xs.sum / xs.length

/-- Model of `tf.reduce_sum` on a flat tensor. -/
def reduceSum (xs : List ℚ) : ℚ :=
  xs.sum

/-- Model of `tf.nn.l2_loss`: half the sum of squares of the elements. -/
def l2LossTF (xs : List ℚ) : ℚ :=
  (xs.map (fun x => x * x)).sum / 2

/-- Model of `tf.math.divide_no_nan`: x / y, except 0 when y = 0. -/
def divideNoNan (x y : ℚ) : ℚ :=
  if y = 0 then 0 else x / y

/-- Embedding of `safe_mean` from `baselines/imagenet/batchensemble.py`
(lines 117-120): `divide_no_nan(reduce_sum(losses), size(losses))`. -/
def safe_mean (losses : List ℚ) : ℚ :=
  divideNoNan (reduceSum losses) (losses.length : ℚ)

/-- Embedding of the CIFAR total batch size
(`variational_inference.py` line 299):
`batch_size = FLAGS.per_core_batch_size * FLAGS.num_cores`. -/
def cifarBatchSize (per_core_batch_size num_cores : ℕ) : ℕ :=
  per_core_batch_size * num_cores

/-- Embedding of the CIFAR base learning rate
(`variational_inference.py` line 325):
`base_lr = FLAGS.base_learning_rate * batch_size / 128`. -/
def cifarBaseLR (base_learning_rate : ℚ) (per_core_batch_size num_cores : ℕ) : ℚ :=
  base_learning_rate * (cifarBatchSize per_core_batch_size num_cores : ℚ) / 128

/-- Embedding of the CIFAR end-of-epoch checkpoint condition
(`variational_inference.py` lines 527-528):
`FLAGS.checkpoint_interval > 0 and (epoch + 1) % FLAGS.checkpoint_interval == 0`.
The interval flag is an integer that may be -1; Python `%` with a positive
modulus agrees with `Int.emod`. -/
def checkpointSaved (checkpoint_interval : ℤ) (epoch : ℕ) : Bool :=
  decide (0 < checkpoint_interval) &&
    decide (((epoch : ℤ) + 1) % checkpoint_interval = 0)

/-- Number of images in the ImageNet-1k train dataset
(`batchensemble.py` line 67). -/
def APPROX_IMAGENET_TRAINING_IMAGES : ℕ := 1281167

/-- Number of images in the ImageNet eval dataset
(`batchensemble.py` line 69). -/
def IMAGENET_VALIDATION_IMAGES : ℕ := 50000

/-- Embedding of the effective batch size of `batchensemble.py`
(lines 132-137): with version2 enabled it is
`(per_core_batch_size // num_models) * num_cores`, otherwise
`per_core_batch_size * num_cores`. -/
def imagenetBatchSize (version2 : Bool) (per_core_batch_size num_models num_cores : ℕ) : ℕ :=
  if version2 then per_core_batch_size / num_models * num_cores
  else per_core_batch_size * num_cores

/-- Embedding of `steps_per_epoch` resolution in `batchensemble.py`
(lines 140-142): the flag value is kept when Python-truthy
(`if not steps_per_epoch` fires on None and on 0), otherwise the default
`APPROX_IMAGENET_TRAINING_IMAGES // batch_size` is used. -/
def imagenetStepsPerEpoch (steps_per_epoch_flag : Option ℕ) (batch_size : ℕ) : ℕ :=
  match steps_per_epoch_flag with
  | some (n + 1) => n + 1
  | _ => APPROX_IMAGENET_TRAINING_IMAGES / batch_size

/-- Embedding of `steps_per_eval` in `batchensemble.py` (line 143):
`IMAGENET_VALIDATION_IMAGES // batch_size`. -/
def imagenetStepsPerEval (batch_size : ℕ) : ℕ :=
  IMAGENET_VALIDATION_IMAGES / batch_size

/-- A trainable variable of the model: its name and its value tensor,
already flattened (so the `tf.reshape(var, (-1,))` of the scripts is the
identity on it). -/
structure TrainVar where
  name : String
  values : List ℚ

/-- Model of `tf.concat(_, axis=0)` on flat tensors. -/
def tfConcat (ts : List (List ℚ)) : List ℚ :=
  ts.flatten

/-- Embedding of the variable-filtering loop of the CIFAR `train_step`
(`variational_inference.py` lines 396-402): append the flattened value of
every trainable variable whose name contains batch_norm or contains bias. -/
def filtered_variables (trainable_variables : List TrainVar) : List (List ℚ) :=
  trainable_variables.foldl
    (fun acc var =>
      if pyStrContains "batch_norm" var.name || pyStrContains "bias" var.name then
        acc ++ [var.values]
      else acc)
    []

/-- The name predicate of the filtering loop, for stating which variables
are kept. -/
def isBatchNormOrBias (var : TrainVar) : Bool :=
  pyStrContains "batch_norm" var.name || pyStrContains "bias" var.name

/-- Embedding of the CIFAR L2 penalty (`variational_inference.py`
lines 404-405): `FLAGS.l2 * 2 * tf.nn.l2_loss(tf.concat(filtered_variables))`. -/
def trainStepL2 (l2 : ℚ) (trainable_variables : List TrainVar) : ℚ :=
  l2 * 2 * l2LossTF (tfConcat (filtered_variables trainable_variables))

/-- Embedding of the KL annealing coefficient of the CIFAR `train_step`
(`variational_inference.py` lines 407-409):
`kl_scale = cast(global_step + 1); kl_scale /= steps_per_epoch *
kl_annealing_epochs; kl_scale = minimum(1., kl_scale)`. -/
def klScale (global_step steps_per_epoch kl_annealing_epochs : ℕ) : ℚ :=
  min 1 (((global_step : ℚ) + 1) /
    ((steps_per_epoch * kl_annealing_epochs : ℕ) : ℚ))

/-- The quantities computed by one replica of the CIFAR `train_step`
(`variational_inference.py` lines 387-417). -/
structure TrainStepState where
  negative_log_likelihood : ℚ
  l2_loss : ℚ
  kl : ℚ
  kl_scale : ℚ
  kl_loss : ℚ
  loss : ℚ
  scaled_loss : ℚ
  gradient_target : ℚ

/-- Embedding of the loss computation of the CIFAR `train_step`
(`variational_inference.py` lines 387-417), line by line. The
per-example sparse categorical cross-entropies of the batch and the
model regularization losses (`model.losses`) are framework-computed
inputs; `gradient_target` is the quantity handed to `tape.gradient`,
whose gradients the optimizer applies. -/
def train_step (crossentropies : List ℚ) (trainable_variables : List TrainVar)
    (model_losses : List ℚ) (l2 : ℚ)
    (global_step steps_per_epoch kl_annealing_epochs num_replicas_in_sync : ℕ) :
    TrainStepState :=
  let negative_log_likelihood := reduceMean crossentropies
  let l2_loss := trainStepL2 l2 trainable_variables
  let kl := model_losses.sum
  let kl_scale := klScale global_step steps_per_epoch kl_annealing_epochs
  let kl_loss := kl_scale * kl
  let loss := negative_log_likelihood + l2_loss + kl_loss
  let scaled_loss := loss / (num_replicas_in_sync : ℚ)
  { negative_log_likelihood := negative_log_likelihood
    l2_loss := l2_loss
    kl := kl
    kl_scale := kl_scale
    kl_loss := kl_loss
    loss := loss
    scaled_loss := scaled_loss
    gradient_target := scaled_loss }

/-- The fixed (multiplier, start epoch) learning-rate schedule
`_LR_SCHEDULE` of `batchensemble.py` (lines 82-84). -/
def LR_SCHEDULE : List (ℚ × ℕ) :=
  [(1, 5), (1/10, 30), (1/100, 60), (1/1000, 80)]

/-- Embedding of `ResnetLearningRateSchedule.__call__` of
`batchensemble.py` (lines 97-108), line by line: compute the warmup value
from `_LR_SCHEDULE[0]`, then overwrite it with
`initial_learning_rate * mult` for every schedule entry whose scaled
start epoch `(start_epoch * num_epochs) // 90` is at most
`step / steps_per_epoch`. -/
def resnetLRCall (steps_per_epoch : ℕ) (initial_learning_rate : ℚ)
    (num_epochs : ℕ) (step : ℕ) : ℚ :=
  let lr_epoch : ℚ := (step : ℚ) / (steps_per_epoch : ℚ)
  let warmup_lr_multiplier : ℚ := (LR_SCHEDULE.headI).1
  let warmup_end_epoch : ℕ := (LR_SCHEDULE.headI).2 * num_epochs / 90
  let learning_rate : ℚ :=
    initial_learning_rate * warmup_lr_multiplier * lr_epoch /
      (warmup_end_epoch : ℚ)
  LR_SCHEDULE.foldl
    (fun lr ms =>
      let start_epoch : ℕ := ms.2 * num_epochs / 90
      if (start_epoch : ℚ) ≤ lr_epoch then initial_learning_rate * ms.1
      else lr)
    learning_rate

/-- Specification reading of the schedule lookup: the last entry of
`_LR_SCHEDULE` whose scaled start epoch is at most the given epoch
position. -/
def lastApplicableEntry (num_epochs : ℕ) (lr_epoch : ℚ) : Option (ℚ × ℕ) :=
  (LR_SCHEDULE.filter
    (fun ms => ((ms.2 * num_epochs / 90 : ℕ) : ℚ) ≤ lr_epoch)).getLast?

/-- Specification reading of `ResnetLearningRateSchedule.__call__`:
`initial_learning_rate * mult` for the last applicable schedule entry,
and the linear warmup value when no entry applies yet. -/
def resnetLRSpecRead (steps_per_epoch : ℕ) (initial_learning_rate : ℚ)
    (num_epochs : ℕ) (step : ℕ) : ℚ :=
  let lr_epoch : ℚ := (step : ℚ) / (steps_per_epoch : ℚ)
  Option.elim (lastApplicableEntry num_epochs lr_epoch)
    (initial_learning_rate * lr_epoch / ((5 * num_epochs / 90 : ℕ) : ℚ))
    (fun ms => initial_learning_rate * ms.1)

/-- Embedding of the input validation and result of
`NormalKLDivergenceWithTiedMean.__call__` (`variational_inference.py`
lines 110-118): it raises ValueError when the input is not an
ed.RandomVariable, and otherwise returns `scale_factor * regularization`.
The KL divergence value between the posterior and the tied-mean prior is
a framework-computed input. -/
def normalKLTiedMeanCall (input_is_random_variable : Bool)
    (scale_factor regularization : ℚ) : Except String ℚ :=
  if !input_is_random_variable then
    Except.error "Input must be an ed.RandomVariable."
  else
    Except.ok (scale_factor * regularization)

/-- Embedding of the depth validation of `wide_resnet`
(`variational_inference.py` lines 210-212): it raises ValueError unless
`(depth - 4) % 6 == 0`, and otherwise proceeds with
`num_blocks = (depth - 4) // 6`. Python floor division and modulo with
the positive modulus 6 agree with `Int.ediv` and `Int.emod`. -/
def wideResnetDepthCheck (depth : ℤ) : Except String ℤ :=
  if (depth - 4) % 6 ≠ 0 then
    Except.error "depth should be 6n+4 (e.g., 16, 22, 28, 40)."
  else
    Except.ok ((depth - 4) / 6)

/-- Whether an embedded call raised a ValueError. -/
def raisesValueError {α : Type} (r : Except String α) : Bool :=
  match r with
  | Except.error _ => true
  | Except.ok _ => false

/-- The metric banks of the CIFAR script: each framework metric is
modelled by the list of update values recorded since its last reset
(`update_state` appends, `reset_states` clears, `result` reads). -/
structure MetricsState where
  metrics : String → List ℚ
  corrupt_metrics : String → List ℚ

/-- Model of `metric.update_state` on a bank of named metrics. -/
def updateMetric (bank : String → List ℚ) (name : String) (v : ℚ) :
    String → List ℚ :=
  fun n => if n = name then bank n ++ [v] else bank n

/-- Apply a sequence of named metric updates in order. -/
def applyUpdates (bank : String → List ℚ) (us : List (String × ℚ)) :
    String → List ℚ :=
  us.foldl (fun b u => updateMetric b u.1 u.2) bank

/-- Model of the reset loop `for metric in metrics.values():
metric.reset_states()` (`variational_inference.py` lines 524-525). -/
def resetAllMetrics (_bank : String → List ℚ) : String → List ℚ :=
  fun _ => []

/-- Modelled from the spec: `utils.aggregate_corrupt_metrics` lives in
`utils.py`, which is not under src/; the spec describes only
multi-replica metric aggregation, so it is modelled as a read-only
aggregation of the corrupted-test metric results that leaves the metric
banks untouched. -/
def aggregate_corrupt_metrics (bank : String → List ℚ) : String → ℚ :=
  fun n => reduceMean (bank n)

/-- The metric updates produced during one epoch of the CIFAR main loop:
those of the train steps, of the clean-test evaluation, and of the
corrupted-test evaluations (empty on epochs where the corruption
interval does not fire). -/
structure EpochData where
  train_updates : List (String × ℚ)
  clean_test_updates : List (String × ℚ)
  corrupt_updates : List (String × ℚ)

/-- Embedding of one epoch of the CIFAR main loop
(`variational_inference.py` lines 470-531) at the metric level: train
steps and the clean evaluation update `metrics`, corrupted evaluations
update `corrupt_metrics`, `aggregate_corrupt_metrics` and the summary
writer read results without modifying any bank, and then every metric in
`metrics` — and none in `corrupt_metrics` — is reset. Returns the new
state together with the `metrics` bank as read when the summary scalars
are written. -/
def runEpoch (s : MetricsState) (d : EpochData) :
    MetricsState × (String → List ℚ) :=
  let afterTrain := applyUpdates s.metrics d.train_updates
  let afterClean := applyUpdates afterTrain d.clean_test_updates
  let afterCorrupt := applyUpdates s.corrupt_metrics d.corrupt_updates
  ({ metrics := resetAllMetrics afterClean, corrupt_metrics := afterCorrupt },
    afterClean)

/-- Run the main loop over a list of epochs, returning the final metric
state. -/
def runEpochs (s : MetricsState) (ds : List EpochData) : MetricsState :=
  ds.foldl (fun st d => (runEpoch st d).1) s

/-- Run the main loop over a list of epochs, collecting the `metrics`
bank read at each summary-writing point. -/
def runEpochsTrace (s : MetricsState) : List EpochData → List (String → List ℚ)
  | [] => []
  | d :: ds => (runEpoch s d).2 :: runEpochsTrace (runEpoch s d).1 ds

/-- The update values a list of named updates records on the metric of
the given name, in order. -/
def updatesTo (n : String) (us : List (String × ℚ)) : List ℚ :=
  (us.filter (fun u => u.1 = n)).map Prod.snd

/-- The `metrics` bank an epoch reports when it starts from freshly reset
metrics: exactly its own train and clean-test updates. -/
def epochOwnBank (d : EpochData) : String → List ℚ :=
  fun n => updatesTo n d.train_updates ++ updatesTo n d.clean_test_updates

end Edward2

namespace Edward2

/-- The accumulator of the filtering loop collects exactly the values of
the variables satisfying the predicate, in order. -/
theorem foldl_filter_append (p : TrainVar → Bool) (l : List TrainVar)
    (a : List (List ℚ)) :
    l.foldl (fun acc var => if p var then acc ++ [var.values] else acc) a =
      a ++ (l.filter p).map TrainVar.values := by
  induction l generalizing a with
  | nil => simp
  | cons v t ih =>
    by_cases h : p v
    · simp [List.foldl_cons, h, ih, List.filter_cons]
    · simp [List.foldl_cons, h, ih, List.filter_cons]

/-- The filtering loop keeps exactly the variables whose name contains
batch_norm or contains bias, and no others. -/
theorem filtered_variables_eq (trainable_variables : List TrainVar) :
    filtered_variables trainable_variables =
      (trainable_variables.filter isBatchNormOrBias).map TrainVar.values := by
  simpa [filtered_variables, isBatchNormOrBias] using
    foldl_filter_append
      (fun var =>
        pyStrContains "batch_norm" var.name || pyStrContains "bias" var.name)
      trainable_variables []

/-- C9: `safe_mean` returns the sum of the elements divided by the number of
elements on a nonempty tensor, and returns exactly 0 on an empty tensor,
never a division by zero. -/
theorem safe_mean_spec (losses : List ℚ) :
    (losses ≠ [] → safe_mean losses = losses.sum / (losses.length : ℚ)) ∧
      safe_mean [] = 0 := by
  constructor
  · intro h
    have hpos : 0 < losses.length := List.length_pos.mpr h
    have hlen : (losses.length : ℚ) ≠ 0 := by
      exact_mod_cast Nat.pos_iff_ne_zero.mp hpos
    simp [safe_mean, divideNoNan, reduceSum, hlen]
  · simp [safe_mean, divideNoNan, reduceSum]

/-- Witness for C9 at the concrete tensor [1, 2, 6]. -/
theorem safe_mean_spec_witness :
    safe_mean [(1 : ℚ), 2, 6] = 3 := by
  have h := (safe_mean_spec [(1 : ℚ), 2, 6]).1 (by simp)
  rw [h]
  norm_num

/-- C6: the base learning rate handed to the CIFAR learning-rate schedule is
the base_learning_rate flag scaled by the ratio of the total batch size
(per_core_batch_size * num_cores) to 128. -/
theorem cifarBaseLR_spec (base_learning_rate : ℚ)
    (per_core_batch_size num_cores : ℕ) :
    cifarBatchSize per_core_batch_size num_cores =
        per_core_batch_size * num_cores ∧
      cifarBaseLR base_learning_rate per_core_batch_size num_cores =
        base_learning_rate *
          ((per_core_batch_size * num_cores : ℕ) : ℚ) / 128 := by
  constructor
  · rfl
  · simp [cifarBaseLR, cifarBatchSize]

/-- C7: a checkpoint is saved at the end of an epoch iff the
checkpoint_interval flag is positive and (epoch + 1) is divisible by it;
with the flag set to -1 no epoch ever saves a checkpoint. -/
theorem checkpointSaved_spec :
    (∀ (interval : ℤ) (epoch : ℕ),
        checkpointSaved interval epoch = true ↔
          0 < interval ∧ ((epoch : ℤ) + 1) % interval = 0) ∧
      ∀ epoch : ℕ, checkpointSaved (-1) epoch = false := by
  constructor
  · intro interval epoch
    simp [checkpointSaved]
  · intro epoch
    simp [checkpointSaved]

/-- C8: the ImageNet BatchEnsemble effective batch size is
(per_core_batch_size // num_models) * num_cores under version2 and
per_core_batch_size * num_cores otherwise; with the steps_per_epoch flag
unset, steps_per_epoch is 1281167 // batch_size and steps_per_eval is
50000 // batch_size. -/
theorem imagenetBatch_spec (per_core_batch_size num_models num_cores
    batch_size : ℕ) :
    imagenetBatchSize true per_core_batch_size num_models num_cores =
        per_core_batch_size / num_models * num_cores ∧
      imagenetBatchSize false per_core_batch_size num_models num_cores =
        per_core_batch_size * num_cores ∧
      imagenetStepsPerEpoch none batch_size = 1281167 / batch_size ∧
      imagenetStepsPerEval batch_size = 50000 / batch_size := by
  refine ⟨rfl, rfl, rfl, rfl⟩

/-- C5: the CIFAR L2 penalty is FLAGS.l2 * 2 * l2_loss computed over exactly
the trainable variables whose name contains batch_norm or contains bias,
and over no other trainable variables: the concatenated tensor it is taken
of is the concatenation of the values of precisely the variables selected
by that name predicate. -/
theorem trainStepL2_spec (l2 : ℚ) (trainable_variables : List TrainVar) :
    trainStepL2 l2 trainable_variables =
        l2 * 2 * l2LossTF (tfConcat
          ((trainable_variables.filter isBatchNormOrBias).map TrainVar.values)) ∧
      ∀ var : TrainVar,
        var ∈ trainable_variables.filter isBatchNormOrBias ↔
          var ∈ trainable_variables ∧
            (pyStrContains "batch_norm" var.name = true ∨
              pyStrContains "bias" var.name = true) := by
  constructor
  · rw [trainStepL2, filtered_variables_eq]
  · intro var
    simp [List.mem_filter, isBatchNormOrBias, Bool.or_eq_true]

/-- C2: the KL annealing coefficient is
min(1, (global_step + 1) / (steps_per_epoch * kl_annealing_epochs)); it is
non-decreasing in global_step, never exceeds 1, and equals exactly 1 for
every global_step at least steps_per_epoch * kl_annealing_epochs - 1. -/
theorem klScale_spec (steps_per_epoch kl_annealing_epochs : ℕ)
    (h : 0 < steps_per_epoch * kl_annealing_epochs) :
    (∀ g : ℕ, klScale g steps_per_epoch kl_annealing_epochs =
        min 1 (((g : ℚ) + 1) /
          ((steps_per_epoch * kl_annealing_epochs : ℕ) : ℚ))) ∧
      (∀ g g' : ℕ, g ≤ g' →
        klScale g steps_per_epoch kl_annealing_epochs ≤
          klScale g' steps_per_epoch kl_annealing_epochs) ∧
      (∀ g : ℕ, klScale g steps_per_epoch kl_annealing_epochs ≤ 1) ∧
      ∀ g : ℕ, steps_per_epoch * kl_annealing_epochs - 1 ≤ g →
        klScale g steps_per_epoch kl_annealing_epochs = 1 := by
  set D := steps_per_epoch * kl_annealing_epochs with hD
  have hDpos : (0 : ℚ) < (D : ℚ) := by exact_mod_cast h
  refine ⟨fun g => rfl, ?_, fun g => min_le_left _ _, ?_⟩
  · intro g g' hgg
    have hstep : ((g : ℚ) + 1) / (D : ℚ) ≤ ((g' : ℚ) + 1) / (D : ℚ) := by
      apply div_le_div_of_nonneg_right _ hDpos.le
      have hq : (g : ℚ) ≤ (g' : ℚ) := by exact_mod_cast hgg
      linarith
    exact min_le_min le_rfl hstep
  · intro g hg
    have hg1 : D ≤ g + 1 := by omega
    have hge : (D : ℚ) ≤ (g : ℚ) + 1 := by exact_mod_cast hg1
    have hone : (1 : ℚ) ≤ ((g : ℚ) + 1) / (D : ℚ) :=
      (one_le_div hDpos).mpr hge
    simpa [klScale, ← hD] using min_eq_left hone

/-- Witness for C2 with steps_per_epoch = 2 and kl_annealing_epochs = 3:
the coefficient at global_step 7 is exactly 1, and it is monotone between
global_step 2 and global_step 4. -/
theorem klScale_spec_witness :
    klScale 7 2 3 = 1 ∧ klScale 2 2 3 ≤ klScale 4 2 3 :=
  ⟨(klScale_spec 2 3 (by norm_num)).2.2.2 7 (by norm_num),
    (klScale_spec 2 3 (by norm_num)).2.1 2 4 (by norm_num)⟩

/-- C1: the per-step CIFAR training loss is the mean sparse categorical
cross-entropy of the batch, plus the L2 penalty over the
batch_norm-or-bias variables, plus the KL-annealed regularization term
(kl_scale times the sum of the model regularization losses); the quantity
the optimizer takes gradients of is this loss divided by the number of
replicas in sync. -/
theorem train_step_spec (crossentropies : List ℚ)
    (trainable_variables : List TrainVar) (model_losses : List ℚ) (l2 : ℚ)
    (global_step steps_per_epoch kl_annealing_epochs num_replicas_in_sync : ℕ) :
    (train_step crossentropies trainable_variables model_losses l2
          global_step steps_per_epoch kl_annealing_epochs
          num_replicas_in_sync).loss =
        reduceMean crossentropies +
          l2 * 2 * l2LossTF (tfConcat
            ((trainable_variables.filter isBatchNormOrBias).map
              TrainVar.values)) +
          klScale global_step steps_per_epoch kl_annealing_epochs *
            model_losses.sum ∧
      (train_step crossentropies trainable_variables model_losses l2
          global_step steps_per_epoch kl_annealing_epochs
          num_replicas_in_sync).gradient_target =
        (train_step crossentropies trainable_variables model_losses l2
            global_step steps_per_epoch kl_annealing_epochs
            num_replicas_in_sync).loss / (num_replicas_in_sync : ℚ) := by
  constructor
  · show reduceMean crossentropies + trainStepL2 l2 trainable_variables +
      klScale global_step steps_per_epoch kl_annealing_epochs *
        model_losses.sum = _
    rw [trainStepL2, filtered_variables_eq]
  · rfl

/-- The overwrite fold of the schedule loop computes the last applicable
schedule entry: the scaled start epochs of the four entries are
non-decreasing, so the final overwrite is by the last entry whose scaled
start epoch is at most the epoch position, and the initial value survives
when no entry applies. -/
theorem lr_fold_lastApplicable (init w : ℚ) (n : ℕ) (e : ℚ) :
    LR_SCHEDULE.foldl
        (fun lr ms =>
          if ((ms.2 * n / 90 : ℕ) : ℚ) ≤ e then init * ms.1 else lr) w =
      Option.elim (lastApplicableEntry n e) w (fun ms => init * ms.1) := by
  have m530 : 5 * n / 90 ≤ 30 * n / 90 :=
    Nat.div_le_div_right (Nat.mul_le_mul_right _ (by norm_num))
  have m3060 : 30 * n / 90 ≤ 60 * n / 90 :=
    Nat.div_le_div_right (Nat.mul_le_mul_right _ (by norm_num))
  have m6080 : 60 * n / 90 ≤ 80 * n / 90 :=
    Nat.div_le_div_right (Nat.mul_le_mul_right _ (by norm_num))
  have c530 : ((5 * n / 90 : ℕ) : ℚ) ≤ ((30 * n / 90 : ℕ) : ℚ) :=
    Nat.cast_le.mpr m530
  have c3060 : ((30 * n / 90 : ℕ) : ℚ) ≤ ((60 * n / 90 : ℕ) : ℚ) :=
    Nat.cast_le.mpr m3060
  have c6080 : ((60 * n / 90 : ℕ) : ℚ) ≤ ((80 * n / 90 : ℕ) : ℚ) :=
    Nat.cast_le.mpr m6080
  by_cases h80 : ((80 * n / 90 : ℕ) : ℚ) ≤ e
  · have h60 := le_trans c6080 h80
    have h30 := le_trans c3060 h60
    have h5 := le_trans c530 h30
    simp [LR_SCHEDULE, lastApplicableEntry, h5, h30, h60, h80]
  · by_cases h60 : ((60 * n / 90 : ℕ) : ℚ) ≤ e
    · have h30 := le_trans c3060 h60
      have h5 := le_trans c530 h30
      simp [LR_SCHEDULE, lastApplicableEntry, h5, h30, h60, h80]
    · by_cases h30 : ((30 * n / 90 : ℕ) : ℚ) ≤ e
      · have h5 := le_trans c530 h30
        simp [LR_SCHEDULE, lastApplicableEntry, h5, h30, h60, h80]
      · by_cases h5 : ((5 * n / 90 : ℕ) : ℚ) ≤ e
        · simp [LR_SCHEDULE, lastApplicableEntry, h5, h30, h60, h80]
        · simp [LR_SCHEDULE, lastApplicableEntry, h5, h30, h60, h80]

/-- C3: `ResnetLearningRateSchedule.__call__` returns
initial_learning_rate * mult for the last schedule entry whose scaled
start epoch `(start_epoch * num_epochs) // 90` is at most
step / steps_per_epoch, and for steps before the first scaled start epoch
it returns the linear warmup value
initial_learning_rate * (step / steps_per_epoch) / warmup_end_epoch. -/
theorem resnetLR_spec (steps_per_epoch : ℕ) (initial_learning_rate : ℚ)
    (num_epochs : ℕ) (step : ℕ) :
    resnetLRCall steps_per_epoch initial_learning_rate num_epochs step =
      resnetLRSpecRead steps_per_epoch initial_learning_rate num_epochs
        step := by
  have hheadI : LR_SCHEDULE.headI = ((1 : ℚ), (5 : ℕ)) := rfl
  simp only [resnetLRCall, resnetLRSpecRead, hheadI]
  rw [lr_fold_lastApplicable]
  rw [mul_one]

/-- C4 counterexample: the repository does raise an error of its own on
some code path: `wide_resnet` called with depth 27 raises its ValueError
about the admissible depths. -/
theorem wide_resnet_raises_valueerror :
    raisesValueError (wideResnetDepthCheck 27) = true ∧
      wideResnetDepthCheck 27 =
        Except.error "depth should be 6n+4 (e.g., 16, 22, 28, 40)." := by
  constructor <;> rfl

/-- C4 amended: the repository raises its own ValueError on exactly two
paths — `NormalKLDivergenceWithTiedMean.__call__` precisely when its
input is not an ed.RandomVariable, and `wide_resnet` precisely when
(depth - 4) % 6 is nonzero — and the non-raising path of the regularizer
returns scale_factor times the framework-computed KL divergence. -/
theorem error_paths_spec :
    (∀ (input_is_random_variable : Bool) (scale_factor regularization : ℚ),
        raisesValueError
            (normalKLTiedMeanCall input_is_random_variable scale_factor
              regularization) =
          !input_is_random_variable) ∧
      (∀ depth : ℤ,
        raisesValueError (wideResnetDepthCheck depth) =
          decide ((depth - 4) % 6 ≠ 0)) ∧
      ∀ scale_factor regularization : ℚ,
        normalKLTiedMeanCall true scale_factor regularization =
          Except.ok (scale_factor * regularization) := by
  refine ⟨?_, ?_, fun sf r => rfl⟩
  · intro b sf r
    cases b <;> rfl
  · intro d
    by_cases h : (d - 4) % 6 ≠ 0 <;>
      simp [wideResnetDepthCheck, raisesValueError, h]

/-- Reading a bank after a sequence of named updates gives its previous
content followed by exactly the updates addressed to that name. -/
theorem applyUpdates_apply (bank : String → List ℚ) (us : List (String × ℚ))
    (n : String) :
    applyUpdates bank us n = bank n ++ updatesTo n us := by
  induction us generalizing bank with
  | nil => simp [applyUpdates, updatesTo]
  | cons u t ih =>
    show applyUpdates (updateMetric bank u.1 u.2) t n =
      bank n ++ updatesTo n (u :: t)
    rw [ih]
    by_cases h : u.1 = n
    · simp [updateMetric, updatesTo, List.filter_cons, h]
    · simp [updateMetric, updatesTo, List.filter_cons, h, Ne.symm h]

/-- C10: starting from freshly created (empty) metrics, after every epoch
of the CIFAR main loop all metrics of the `metrics` dictionary are reset
(so the final state has them empty no matter how many epochs ran), the
`corrupt_metrics` banks are never reset and accumulate the corrupted-test
updates of the entire run, and the `metrics` bank read when each epoch
writes its summary scalars holds exactly the train and clean-test
updates of that epoch alone. -/
theorem metrics_reset_epoch_spec (s : MetricsState) (ds : List EpochData)
    (hm : ∀ n, s.metrics n = []) :
    (∀ n, (runEpochs s ds).metrics n = []) ∧
      (∀ n, (runEpochs s ds).corrupt_metrics n =
        s.corrupt_metrics n ++
          (ds.map (fun d => updatesTo n d.corrupt_updates)).flatten) ∧
      runEpochsTrace s ds = ds.map epochOwnBank := by
  induction ds generalizing s with
  | nil =>
    exact ⟨fun n => hm n, fun n => by simp [runEpochs], by
      simp [runEpochsTrace]⟩
  | cons d t ih =>
    have ih' := ih (runEpoch s d).1 (fun n => rfl)
    refine ⟨?_, ?_, ?_⟩
    · intro n
      show (runEpochs (runEpoch s d).1 t).metrics n = []
      exact ih'.1 n
    · intro n
      show (runEpochs (runEpoch s d).1 t).corrupt_metrics n = _
      rw [ih'.2.1 n]
      show applyUpdates s.corrupt_metrics d.corrupt_updates n ++ _ = _
      rw [applyUpdates_apply]
      simp [List.append_assoc]
    · show (runEpoch s d).2 :: runEpochsTrace (runEpoch s d).1 t =
        epochOwnBank d :: t.map epochOwnBank
      rw [ih'.2.2]
      congr 1
      funext n
      show applyUpdates (applyUpdates s.metrics d.train_updates)
        d.clean_test_updates n = epochOwnBank d n
      rw [applyUpdates_apply, applyUpdates_apply, hm n]
      simp [epochOwnBank]

/-- Witness for C10 on a concrete two-epoch run: the train metric bank is
empty at the end while the corrupted-test metric bank holds the updates
of both epochs. -/
theorem metrics_reset_epoch_spec_witness :
    (runEpochs ⟨fun _ => [], fun _ => []⟩
        [⟨[("train/loss", 2)], [("test/accuracy", 1)],
            [("test/nll_zoom_blur_1", 5)]⟩,
          ⟨[("train/loss", 3)], [], [("test/nll_zoom_blur_1", 7)]⟩]).metrics
        "train/loss" = [] ∧
      (runEpochs ⟨fun _ => [], fun _ => []⟩
        [⟨[("train/loss", 2)], [("test/accuracy", 1)],
            [("test/nll_zoom_blur_1", 5)]⟩,
          ⟨[("train/loss", 3)], [],
            [("test/nll_zoom_blur_1", 7)]⟩]).corrupt_metrics
        "test/nll_zoom_blur_1" = [5, 7] := by
  have h := metrics_reset_epoch_spec ⟨fun _ => [], fun _ => []⟩
    [⟨[("train/loss", 2)], [("test/accuracy", 1)],
        [("test/nll_zoom_blur_1", 5)]⟩,
      ⟨[("train/loss", 3)], [], [("test/nll_zoom_blur_1", 7)]⟩]
    (fun n => rfl)
  refine ⟨h.1 "train/loss", ?_⟩
  rw [h.2.1 "test/nll_zoom_blur_1"]
  simp [updatesTo]

end Edward2
